import Mathlib

/-!
Shallow embedding of the model-synth Meshy API client core
(`MeshyBaseClient`, `TextTo3DAPI`, `AnimationsAPI`, `RetextureAPI`),
together with theorems settling the specification claims about the
request executor, the rate window, the backoff computation, the task
pollers and the parameter validation.
-/

namespace ModelSynth

/-- Retry configuration, from `RetryConfig` in the base client.
Delays are in milliseconds. -/

structure RetryConfig where
  maxRetries : Nat
  baseDelay : Nat
  maxDelay : Nat
  retryOn : List Nat
deriving DecidableEq, Repr

/-- `DEFAULT_RETRY_CONFIG` from the base client. -/

def defaultRetryConfig : RetryConfig :=
  { maxRetries := 3
    baseDelay := 1000
    maxDelay := 10000
    retryOn := [429, 500, 502, 503, 504] }

/-- `calculateBackoff` from the base client:
`exponential = baseDelay * 2^attempt`, `jitter = random() * 0.3 * exponential`,
`delay = min(exponential + jitter, maxDelay)`, returned as `Math.floor(delay)`.
The value drawn from `Math.random()` is the parameter `rand`, in `[0, 1)`. -/

def calculateBackoff (cfg : RetryConfig) (rand : ℚ) (attempt : Nat) : ℤ :=
  let exponential : ℚ := (cfg.baseDelay : ℚ) * 2 ^ attempt
  let jitter : ℚ := rand * (3 / 10) * exponential
  let delay : ℚ := min (exponential + jitter) (cfg.maxDelay : ℚ)
  Int.floor delay

/-- The rate-limit window duration (`rateLimitWindow = 1000` ms). -/

def rateLimitWindow : Nat := 1000

/-- `RATE_LIMITS.pro.requestsPerSecond`, the ceiling assumed by
`checkRateLimit` ("assume Pro tier: 20 req/s"). -/

def proRequestsPerSecond : Nat := 20

/-- The pruning step of `checkRateLimit`: keep request times `t` with
`now - t < rateLimitWindow`. -/

def pruneTimes (now : Nat) (times : List Nat) : List Nat :=
  times.filter (fun t => now - t < rateLimitWindow)

/-- Number of entries of the rate window newer than the trailing window at
time `now`. -/

def countRecent (now : Nat) (times : List Nat) : Nat :=
  (pruneTimes now times).length

/-- `checkRateLimit` from the base client, as a function of the current time
and the stored `requestTimes`.  It returns the time at which the caller is
admitted (after any rate-limit sleep of `waitTime + 100` ms) together with
the pruned window. -/

def checkRateLimit (now : Nat) (times : List Nat) : Nat × List Nat :=
  let pruned := pruneTimes now times
  if pruned.length ≥ proRequestsPerSecond then
    let oldestRequest := pruned.headD 0
    let waitTime := rateLimitWindow - (now - oldestRequest)
    if waitTime > 0 then (now + (waitTime + 100), pruned) else (now, pruned)
  else (now, pruned)

/-- One admission-and-append step of a logical call on the client: time
advances by `gap` to the moment `checkRateLimit` runs, the call is admitted,
and the success timestamp (taken `dur` ms after admission, when the fetch
completes) is appended to the window, exactly as `request` records
`Date.now()` on success. -/

def rateStep (st : Nat × List Nat) (gap dur : Nat) : Nat × List Nat :=
  let now := st.1 + gap
  let adm := (checkRateLimit now st.2).1
  let pruned := (checkRateLimit now st.2).2
  (adm + dur, pruned ++ [adm + dur])

/-- Run a sequence of admission-and-append steps from the initial state
(time `0`, empty window). -/

def runRate (steps : List (Nat × Nat)) : Nat × List Nat :=
  steps.foldl (fun st p => rateStep st p.1 p.2) (0, [])

/-- Invariant of the rate window: entries are in chronological order, no
entry is in the future, and at most `proRequestsPerSecond` entries are
within the trailing window. -/

def RateInv (st : Nat × List Nat) : Prop :=
  st.2.Pairwise (· ≤ ·) ∧ (∀ e ∈ st.2, e ≤ st.1) ∧
    countRecent st.1 st.2 ≤ proRequestsPerSecond

/-- Character-list check that `seg` occurs at the start of `l`. -/

def segAt : List Char → List Char → Bool
  | [], _ => true
  | _ :: _, [] => false
  | a :: s, b :: l => a == b && segAt s l

/-- Character-list check that `seg` occurs somewhere inside `l`; used to
state that an error message carries a given piece of text. -/

def hasSeg (seg : List Char) : List Char → Bool
  | [] => segAt seg []
  | a :: l2 => segAt seg (a :: l2) || hasSeg seg l2

/-- Status union of `MeshyTask` in the text-to-3d client:
`PENDING | IN_PROGRESS | SUCCEEDED | FAILED | EXPIRED`. -/

inductive MeshyStatus where
  | PENDING
  | IN_PROGRESS
  | SUCCEEDED
  | FAILED
  | EXPIRED
deriving DecidableEq, Repr

/-- The string form of a text-to-3d status, as interpolated into messages. -/

def meshyStatusString : MeshyStatus → String
  | .PENDING => "PENDING"
  | .IN_PROGRESS => "IN_PROGRESS"
  | .SUCCEEDED => "SUCCEEDED"
  | .FAILED => "FAILED"
  | .EXPIRED => "EXPIRED"

/-- `model_urls` of a `MeshyTask`. -/

structure ModelUrls where
  glb : Option String
  fbx : Option String
  usdz : Option String
  obj : Option String
  mtl : Option String
deriving DecidableEq, Repr

/-- `MeshyTask` from the text-to-3d client. -/

structure MeshyTask where
  id : String
  status : MeshyStatus
  progress : Option Nat
  model_urls : Option ModelUrls
  model_url : Option String
  created_at : String
  finished_at : Nat
deriving DecidableEq, Repr

/-- The loop body of `TextTo3DAPI.pollTask`: at each remaining tick, fetch
the task (tick index `i`); a fetch failure propagates; `SUCCEEDED` returns
the task; `FAILED` or `EXPIRED` raises the task-failed message; otherwise
poll again.  When the tick budget is exhausted the timed-out message is
raised. -/

def pollLoop (fetchTask : Nat → Except String MeshyTask) (taskId : String) :
    Nat → Nat → Except String MeshyTask
  | _, 0 => .error ("Task " ++ taskId ++ " timed out")
  | i, fuel + 1 =>
    match fetchTask i with
    | .error e => .error e
    | .ok task =>
      if task.status = .SUCCEEDED then .ok task
      else if task.status = .FAILED ∨ task.status = .EXPIRED then
        .error ("Task " ++ taskId ++ " failed with status: " ++ meshyStatusString task.status)
      else pollLoop fetchTask taskId (i + 1) fuel

/-- `TextTo3DAPI.pollTask` with its fetch sequence abstracted: `fetchTask i`
is the outcome of the `getTask` call at tick `i`; `maxRetries` is the tick
budget (default 60 in the source). -/

def pollTask (fetchTask : Nat → Except String MeshyTask) (taskId : String)
    (maxRetries : Nat) : Except String MeshyTask :=
  pollLoop fetchTask taskId 0 maxRetries

/-- Status union of `AnimationTask` in the animations client:
`PENDING | IN_PROGRESS | SUCCEEDED | FAILED | CANCELED`. -/

inductive AnimStatus where
  | PENDING
  | IN_PROGRESS
  | SUCCEEDED
  | FAILED
  | CANCELED
deriving DecidableEq, Repr

/-- The string form of an animation status, as interpolated into messages. -/

def animStatusString : AnimStatus → String
  | .PENDING => "PENDING"
  | .IN_PROGRESS => "IN_PROGRESS"
  | .SUCCEEDED => "SUCCEEDED"
  | .FAILED => "FAILED"
  | .CANCELED => "CANCELED"

/-- `result` of an `AnimationTask`. -/

structure AnimationResult where
  animation_glb_url : Option String
  animation_fbx_url : Option String
  processed_usdz_url : Option String
  processed_armature_fbx_url : Option String
  processed_animation_fps_fbx_url : Option String
deriving DecidableEq, Repr

/-- `AnimationTask` from the animations client. -/

structure AnimationTask where
  id : String
  status : AnimStatus
  progress : Option Nat
  created_at : Nat
  started_at : Option Nat
  finished_at : Option Nat
  expires_at : Option Nat
  result : Option AnimationResult
  task_error : Option String
  preceding_tasks : Option Nat
deriving DecidableEq, Repr

/-- The loop body of `AnimationsAPI.pollAnimationTask`: like `pollLoop`, but
`FAILED` and `CANCELED` are the terminal failure statuses and the messages
read `Animation task ...`. -/

def pollAnimationLoop (getAnimationTask : Nat → Except String AnimationTask)
    (taskId : String) : Nat → Nat → Except String AnimationTask
  | _, 0 => .error ("Animation task " ++ taskId ++ " timed out")
  | i, fuel + 1 =>
    match getAnimationTask i with
    | .error e => .error e
    | .ok task =>
      if task.status = .SUCCEEDED then .ok task
      else if task.status = .FAILED ∨ task.status = .CANCELED then
        .error ("Animation task " ++ taskId ++ " failed: " ++ animStatusString task.status)
      else pollAnimationLoop getAnimationTask taskId (i + 1) fuel

/-- `AnimationsAPI.pollAnimationTask` with its fetch sequence abstracted. -/

def pollAnimationTask (getAnimationTask : Nat → Except String AnimationTask)
    (taskId : String) (maxRetries : Nat) : Except String AnimationTask :=
  pollAnimationLoop getAnimationTask taskId 0 maxRetries

/-- The error classes of the base client (`name` field of the thrown
error). -/

inductive ErrName where
  | MeshyError
  | MeshyRateLimitError
  | MeshyAuthError
  | MeshyPaymentError
deriving DecidableEq, Repr

/-- The error thrown by `handleErrorResponse`: its class, `message`,
`statusCode`, and `responseBody` (absent for the auth and payment classes,
whose constructors do not pass the parsed body on). -/

structure ClassifiedErr where
  name : ErrName
  message : String
  statusCode : Nat
  responseBody : Option (Option String)
deriving DecidableEq, Repr

/-- `errorData.message || "HTTP {status}"`: the `message` field of the
parsed error body when it is truthy (present and non-empty), otherwise the
generic fallback.  The parsed body is abstracted as the optional `message`
field it yields (`JSON.parse` failure stores the raw text there, and an
empty string is falsy in the source). -/

def deriveMessage (status : Nat) (bodyMsg : Option String) : String :=
  match bodyMsg with
  | some m => if m = "" then "HTTP " ++ toString status else m
  | none => "HTTP " ++ toString status

/-- The server-error statuses of the `handleErrorResponse` switch. -/

def serverErrorStatuses : List Nat := [500, 502, 503, 504]

/-- `handleErrorResponse` from the base client, as the error value it
throws, as a function of the response status, the parsed body message and
the current attempt index. -/

def handleErrorResponse (cfg : RetryConfig) (status : Nat)
    (bodyMsg : Option String) (attempt : Nat) : ClassifiedErr :=
  let message := deriveMessage status bodyMsg
  if status = 400 then
    ⟨.MeshyError, "Bad Request: " ++ message, 400, some bodyMsg⟩
  else if status = 401 then
    ⟨.MeshyAuthError, "Unauthorized: " ++ message, 401, none⟩
  else if status = 402 then
    ⟨.MeshyPaymentError, "Payment Required: " ++ message, 402, none⟩
  else if status = 403 then
    ⟨.MeshyError, "Forbidden: " ++ message ++ ". Check CORS if calling from browser.",
      403, some bodyMsg⟩
  else if status = 404 then
    ⟨.MeshyError, "Not Found: " ++ message, 404, some bodyMsg⟩
  else if status = 429 then
    if attempt < cfg.maxRetries then
      ⟨.MeshyRateLimitError, message, 429, some bodyMsg⟩
    else
      ⟨.MeshyRateLimitError, "Rate Limit Exceeded: " ++ message, 429, some bodyMsg⟩
  else if status ∈ serverErrorStatuses then
    if attempt < cfg.maxRetries then
      ⟨.MeshyError, "Server Error: " ++ message, status, some bodyMsg⟩
    else
      ⟨.MeshyError, "Server Error (final): " ++ message, status, some bodyMsg⟩
  else
    ⟨.MeshyError, "Unexpected error: " ++ message, status, some bodyMsg⟩

/-- Outcome of one `fetch` inside the request loop: either a response (with
its status, the parsed message of its error body, and the outcome of
`response.json()` — the decoded payload, or the error this decoding throws
when the body is not valid JSON), or a transport failure thrown by `fetch`
itself. -/

inductive FetchOut (α : Type) where
  | resp (status : Nat) (bodyMsg : Option String) (json : Except String α)
  | netError (msg : String)

/-- The error with which `request` finally rejects: the last classified
response error, the last transport error, or the last `response.json()`
decode error. -/

inductive ReqError where
  | classified (e : ClassifiedErr)
  | transport (msg : String)
  | decode (msg : String)
deriving DecidableEq, Repr

/-- `response.ok` of the fetch API: status in the 200-299 range. -/

def responseOk (status : Nat) : Bool :=
  decide (200 ≤ status ∧ status < 300)

/-- Result of a `request` call: the decoded payload or the final error, the
number of network fetches performed, the final `requestTimes` window, and
the number of `checkRateLimit` admission checks performed. -/

structure RequestResult (α : Type) where
  result : Except ReqError α
  fetchCount : Nat
  times : List Nat
  admissionChecks : Nat

/-- Intermediate state of the retry loop: result, fetch count, window. -/

structure LoopOutcome (α : Type) where
  result : Except ReqError α
  fetchCount : Nat
  times : List Nat

/-- The retry loop of `MeshyBaseClient.request`: at each remaining attempt,
fetch; a non-ok response raises the classified error, which the catch block
records as the last error before retrying; an ok response first appends the
timestamp `pushTimes attempt` to the window (`requestTimes.push(Date.now())`
precedes `response.json()` in the try block) and then decodes the body — a
decode failure also lands in the catch block and is retried, with the
timestamp already recorded.  When attempts are exhausted, the last error is
thrown (the source fallback message stands in for an impossible empty
`lastError`). -/

def requestLoop (cfg : RetryConfig) (fetchSeq : Nat → FetchOut α) (pushTimes : Nat → Nat) :
    Nat → Nat → List Nat → Nat → Option ReqError → LoopOutcome α
  | _, 0, times, count, lastError =>
    ⟨.error (lastError.getD (.transport "Request failed after retries")), count, times⟩
  | attempt, fuel + 1, times, count, _ =>
    match fetchSeq attempt with
    | .netError m =>
      requestLoop cfg fetchSeq pushTimes (attempt + 1) fuel times (count + 1)
        (some (.transport m))
    | .resp status bodyMsg json =>
      if responseOk status then
        match json with
        | .ok payload => ⟨.ok payload, count + 1, times ++ [pushTimes attempt]⟩
        | .error m =>
          requestLoop cfg fetchSeq pushTimes (attempt + 1) fuel
            (times ++ [pushTimes attempt]) (count + 1) (some (.decode m))
      else
        requestLoop cfg fetchSeq pushTimes (attempt + 1) fuel times (count + 1)
          (some (.classified (handleErrorResponse cfg status bodyMsg attempt)))

/-- `MeshyBaseClient.request`: one `checkRateLimit` admission check (before
the loop), then the retry loop over attempts `0 .. maxRetries` starting from
the pruned window.  `now` is the clock at the admission check and
`pushTimes attempt` the `Date.now()` value recorded when the response of
that attempt is ok. -/

def request (cfg : RetryConfig) (now : Nat) (fetchSeq : Nat → FetchOut α)
    (pushTimes : Nat → Nat) (times : List Nat) : RequestResult α :=
  let pruned := (checkRateLimit now times).2
  let o := requestLoop cfg fetchSeq pushTimes 0 (cfg.maxRetries + 1) pruned 0 none
  ⟨o.result, o.fetchCount, o.times, 1⟩

/-- Whether an `Except` is a success. -/

def exceptIsOk : Except ε α → Bool
  | .ok _ => true
  | .error _ => false

/-- Outcome of one raw status fetch inside `TextTo3DAPI.getTask`: an ok
response carrying the task json, or an error response with its status and
body text. -/

inductive GetResp where
  | ok (task : MeshyTask)
  | err (status : Nat) (body : String)

/-- Result of a `getTask` call: the task or the thrown message, the number
of fetches performed, and the list of backoff waits (ms) slept between
404 retries. -/

structure GetTaskRun where
  result : Except String MeshyTask
  fetchCount : Nat
  waits : List Nat
deriving Repr

/-- The loop of `TextTo3DAPI.getTask`: for `attempt = 0 .. maxRetries`, an
ok response returns the task; a 404 before the retry budget is exhausted
sleeps `2000 * (attempt + 1)` ms and retries; any other error response (or
a 404 with the budget exhausted) throws the failed-to-get message. -/

def getTaskLoop (fetch : Nat → GetResp) (maxRetries : Nat) :
    Nat → Nat → Nat → List Nat → GetTaskRun
  | _, 0, count, waits =>
    ⟨.error ("Task not found after " ++ toString (maxRetries + 1) ++ " attempts"),
      count, waits⟩
  | attempt, fuel + 1, count, waits =>
    match fetch attempt with
    | .ok task => ⟨.ok task, count + 1, waits⟩
    | .err status body =>
      if status = 404 ∧ attempt < maxRetries then
        getTaskLoop fetch maxRetries (attempt + 1) fuel (count + 1)
          (waits ++ [2000 * (attempt + 1)])
      else
        ⟨.error ("Failed to get task: " ++ toString status ++ " - " ++ body),
          count + 1, waits⟩

/-- `TextTo3DAPI.getTask`: `maxRetries` is 3 when `retryOn404` (the
default), else 0, and the loop runs over attempts `0 .. maxRetries`. -/

def getTask (fetch : Nat → GetResp) (retryOn404 : Bool) : GetTaskRun :=
  let maxRetries := if retryOn404 then 3 else 0
  getTaskLoop fetch maxRetries 0 (maxRetries + 1) 0 []

/-- `RetextureTaskParams` from the retexture client; optional fields are
`Option`s, and a supplied empty string is falsy in the source checks. -/

structure RetextureTaskParams where
  input_task_id : Option String
  model_url : Option String
  text_style_prompt : Option String
  image_style_url : Option String
  ai_model : Option String
  enable_original_uv : Option Bool
  enable_pbr : Option Bool
deriving DecidableEq, Repr

/-- JavaScript truthiness of an optional string: present and non-empty. -/

def truthyStr : Option String → Bool
  | none => false
  | some s => decide (¬ s = "")

/-- The request body assembled by `createRetextureTask`. -/

structure RetextureRequestBody where
  input_task_id : Option String
  model_url : Option String
  text_style_prompt : Option String
  image_style_url : Option String
  ai_model : Option String
  enable_original_uv : Option Bool
  enable_pbr : Option Bool
deriving DecidableEq, Repr

/-- Body assembly of `createRetextureTask`: input task id if truthy else
model url; text style if truthy else image style; then the optional
passthrough fields (`ai_model` when truthy, the booleans when present). -/

def buildRetextureBody (params : RetextureTaskParams) : RetextureRequestBody :=
  let b0 : RetextureRequestBody := ⟨none, none, none, none, none, none, none⟩
  let b1 := if truthyStr params.input_task_id then
      { b0 with input_task_id := params.input_task_id }
    else { b0 with model_url := params.model_url }
  let b2 := if truthyStr params.text_style_prompt then
      { b1 with text_style_prompt := params.text_style_prompt }
    else { b1 with image_style_url := params.image_style_url }
  let b3 := if truthyStr params.ai_model then { b2 with ai_model := params.ai_model } else b2
  let b4 := match params.enable_original_uv with
    | some v => { b3 with enable_original_uv := some v }
    | none => b3
  match params.enable_pbr with
  | some v => { b4 with enable_pbr := some v }
  | none => b4

/-- The `{result?, id?}` payload returned by the create endpoint. -/

structure CreateResp where
  result : Option String
  id : Option String
deriving DecidableEq, Repr

/-- Status union of `RetextureTask`. -/

inductive RetexStatus where
  | PENDING
  | IN_PROGRESS
  | SUCCEEDED
  | FAILED
  | EXPIRED
deriving DecidableEq, Repr

/-- The texture url set of a `RetextureTask`. -/

structure TextureSet where
  base_color : Option String
  metallic : Option String
  normal : Option String
  roughness : Option String
deriving DecidableEq, Repr

/-- `RetextureTask` from the retexture client. -/

structure RetextureTask where
  id : String
  status : RetexStatus
  progress : Option Nat
  model_urls : Option ModelUrls
  texture_urls : Option (List TextureSet)
  created_at : Nat
deriving DecidableEq, Repr

/-- Result of a `createRetextureTask` call, together with the number of
times the `makeRequestWithRetry` callback was invoked. -/

structure CreateRunResult where
  outcome : Except String RetextureTask
  callbackCalls : Nat

/-- JavaScript `a || b` on optional strings (an empty string is falsy). -/

def orTruthy (a b : Option String) : Option String :=
  if truthyStr a then a else b

/-- `RetextureAPI.createRetextureTask`: validate that an input
(`input_task_id` or `model_url`) and a style (`text_style_prompt` or
`image_style_url`) are supplied and truthy before anything else; on
validation failure, throw without ever invoking the request callback.
Otherwise assemble the body, invoke the callback once, take
`data.result || data.id` as the task id, and fail if it is falsy. -/

def createRetextureTask (params : RetextureTaskParams)
    (makeRequestWithRetry : RetextureRequestBody → Except String CreateResp)
    (now : Nat) : CreateRunResult :=
  if truthyStr params.input_task_id = false ∧ truthyStr params.model_url = false then
    ⟨.error "Either input_task_id or model_url is required", 0⟩
  else if truthyStr params.text_style_prompt = false ∧
      truthyStr params.image_style_url = false then
    ⟨.error "Either text_style_prompt or image_style_url is required", 0⟩
  else
    match makeRequestWithRetry (buildRetextureBody params) with
    | .error e => ⟨.error e, 1⟩
    | .ok data =>
      let taskId := orTruthy data.result data.id
      if truthyStr taskId = false then
        ⟨.error "No task ID returned from createRetextureTask", 1⟩
      else
        ⟨.ok ⟨taskId.getD "", .PENDING, some 0, none, none, now⟩, 1⟩

theorem pruneTimes_sublist (now : Nat) (times : List Nat) :
    (pruneTimes now times).Sublist times :=
  List.filter_sublist times

theorem countRecent_mono {t₀ t₁ : Nat} (times : List Nat) (ht : t₀ ≤ t₁) :
    countRecent t₁ times ≤ countRecent t₀ times := by
  unfold countRecent pruneTimes
  apply List.Sublist.length_le
  apply List.monotone_filter_right
  intro a ha
  simp only [decide_eq_true_eq] at *
  omega

theorem checkRateLimit_snd (now : Nat) (times : List Nat) :
    (checkRateLimit now times).2 = pruneTimes now times := by
  simp only [checkRateLimit]
  split
  · split
    · rfl
    · rfl
  · rfl

theorem checkRateLimit_fst_ge (now : Nat) (times : List Nat) :
    now ≤ (checkRateLimit now times).1 := by
  simp only [checkRateLimit]
  split
  · split
    · exact Nat.le_add_right _ _
    · exact Nat.le_refl _
  · exact Nat.le_refl _

theorem checkRateLimit_fst_of_lt (now : Nat) (times : List Nat)
    (h : ¬ (pruneTimes now times).length ≥ proRequestsPerSecond) :
    (checkRateLimit now times).1 = now := by
  simp only [checkRateLimit]
  rw [if_neg h]

theorem checkRateLimit_fst_of_ge (now : Nat) (times : List Nat) (hd : Nat)
    (rest : List Nat) (hpr : pruneTimes now times = hd :: rest)
    (hge : (pruneTimes now times).length ≥ proRequestsPerSecond)
    (hlt : now - hd < rateLimitWindow) :
    (checkRateLimit now times).1 = now + ((rateLimitWindow - (now - hd)) + 100) := by
  simp only [checkRateLimit]
  rw [hpr] at hge ⊢
  rw [if_pos hge]
  simp only [List.headD_cons]
  rw [if_pos (by unfold rateLimitWindow at *; omega)]

theorem countRecent_append (now : Nat) (l1 l2 : List Nat) :
    countRecent now (l1 ++ l2) = countRecent now l1 + countRecent now l2 := by
  unfold countRecent pruneTimes
  rw [List.filter_append, List.length_append]

theorem countRecent_le_length (now : Nat) (l : List Nat) :
    countRecent now l ≤ l.length :=
  List.Sublist.length_le (List.filter_sublist _)

theorem countRecent_cons_of_old (now x : Nat) (l : List Nat)
    (h : ¬ (now - x < rateLimitWindow)) :
    countRecent now (x :: l) = countRecent now l := by
  unfold countRecent pruneTimes
  rw [List.filter_cons]
  simp [h]

theorem pairwise_append_single {l : List Nat} {x : Nat}
    (hs : l.Pairwise (· ≤ ·)) (hx : ∀ e ∈ l, e ≤ x) :
    (l ++ [x]).Pairwise (· ≤ ·) := by
  apply List.pairwise_append.mpr
  refine ⟨hs, List.pairwise_singleton _ _, ?_⟩
  intro a ha b hbm
  simp only [List.mem_singleton] at hbm
  subst hbm
  exact hx a ha

theorem rateStep_inv (t : Nat) (times : List Nat) (gap dur : Nat)
    (hs : times.Pairwise (· ≤ ·)) (hb : ∀ e ∈ times, e ≤ t)
    (hc : countRecent t times ≤ proRequestsPerSecond) :
    RateInv (rateStep (t, times) gap dur) := by
  have h1 : (rateStep (t, times) gap dur).1 = (checkRateLimit (t + gap) times).1 + dur := rfl
  have h2 : (rateStep (t, times) gap dur).2 =
      pruneTimes (t + gap) times ++ [(checkRateLimit (t + gap) times).1 + dur] := by
    show (checkRateLimit (t + gap) times).2 ++ _ = _
    rw [checkRateLimit_snd]
  have hgap : t ≤ t + gap := Nat.le_add_right _ _
  have hps : (pruneTimes (t + gap) times).Pairwise (· ≤ ·) := List.Pairwise.filter _ hs
  have hmem : ∀ e ∈ pruneTimes (t + gap) times, e ∈ times := by
    intro e he
    exact (List.mem_filter.mp he).1
  have hpb : ∀ e ∈ pruneTimes (t + gap) times, e ≤ t + gap := by
    intro e he
    exact le_trans (hb e (hmem e he)) hgap
  have hadm : t + gap ≤ (checkRateLimit (t + gap) times).1 := checkRateLimit_fst_ge _ _
  have hplen : (pruneTimes (t + gap) times).length ≤ proRequestsPerSecond :=
    le_trans (countRecent_mono times hgap) hc
  have hpbA : ∀ e ∈ pruneTimes (t + gap) times, e ≤ (checkRateLimit (t + gap) times).1 + dur := by
    intro e he
    exact le_trans (hpb e he) (le_trans hadm (Nat.le_add_right _ _))
  refine ⟨?_, ?_, ?_⟩
  · rw [h2]
    exact pairwise_append_single hps hpbA
  · rw [h1, h2]
    intro e he
    rcases List.mem_append.mp he with h3 | h3
    · exact hpbA e h3
    · simp only [List.mem_singleton] at h3
      omega
  · rw [h1, h2]
    by_cases hge : (pruneTimes (t + gap) times).length ≥ proRequestsPerSecond
    · -- window at the ceiling: the sleep pushes admission past the oldest entry
      have hlen20 : (pruneTimes (t + gap) times).length = proRequestsPerSecond :=
        le_antisymm hplen hge
      obtain ⟨hd, rest, hpr⟩ : ∃ hd rest, pruneTimes (t + gap) times = hd :: rest := by
        cases hq : pruneTimes (t + gap) times with
        | nil => rw [hq] at hlen20; simp [proRequestsPerSecond] at hlen20
        | cons a l => exact ⟨a, l, rfl⟩
      have hhd_mem : hd ∈ pruneTimes (t + gap) times := by
        rw [hpr]; exact List.mem_cons_self _ _
      have hhd_rec : t + gap - hd < rateLimitWindow := by
        have h4 := (List.mem_filter.mp hhd_mem).2
        simpa using h4
      have hhd_le : hd ≤ t + gap := hpb hd hhd_mem
      have hfst : (checkRateLimit (t + gap) times).1 =
          t + gap + ((rateLimitWindow - (t + gap - hd)) + 100) :=
        checkRateLimit_fst_of_ge _ _ hd rest hpr hge hhd_rec
      set tA := (checkRateLimit (t + gap) times).1 + dur with htA
      have hAbig : hd + 1100 ≤ tA := by
        rw [htA, hfst]
        unfold rateLimitWindow at *
        omega
      have hdrop : ¬ (tA - hd < rateLimitWindow) := by
        unfold rateLimitWindow at *
        omega
      rw [hpr, List.cons_append, countRecent_cons_of_old _ _ _ hdrop,
        countRecent_append]
      have hrest : countRecent tA rest ≤ rest.length := countRecent_le_length _ _
      have hone : countRecent tA [tA] ≤ 1 := countRecent_le_length _ _
      have hrl : rest.length + 1 = proRequestsPerSecond := by
        rw [hpr] at hlen20
        simpa using hlen20
      omega
    · -- below the ceiling: appending one entry keeps the count at or below it
      rw [countRecent_append]
      have hfl : countRecent ((checkRateLimit (t + gap) times).1 + dur)
          (pruneTimes (t + gap) times) ≤ (pruneTimes (t + gap) times).length :=
        countRecent_le_length _ _
      have hone : countRecent ((checkRateLimit (t + gap) times).1 + dur)
          [(checkRateLimit (t + gap) times).1 + dur] ≤ 1 := countRecent_le_length _ _
      omega

theorem runRate_inv (steps : List (Nat × Nat)) : RateInv (runRate steps) := by
  have hgen : ∀ st : Nat × List Nat, RateInv st →
      RateInv (steps.foldl (fun st p => rateStep st p.1 p.2) st) := by
    induction steps with
    | nil => intro st h; exact h
    | cons p rest ih =>
        intro st h
        obtain ⟨t, times⟩ := st
        exact ih _ (rateStep_inv t times p.1 p.2 h.1 h.2.1 h.2.2)
  apply hgen
  refine ⟨List.Pairwise.nil, ?_, ?_⟩
  · intro e he
    simp at he
  · simp [countRecent, pruneTimes, proRequestsPerSecond]

/-- Claim C2: for every sequence of admission checks and request completions
on a single client instance, after each admission-and-append step the number
of `requestTimes` entries newer than the trailing 1-second window never
exceeds the configured `requestsPerSecond` ceiling (20, the Pro tier the
client assumes). -/
theorem c2_rate_window_never_exceeds_ceiling (steps : List (Nat × Nat)) :
    countRecent (runRate steps).1 (runRate steps).2 ≤ proRequestsPerSecond :=
  (runRate_inv steps).2.2

theorem one_le_two_pow_rat (a : Nat) : (1 : ℚ) ≤ 2 ^ a := by
  have h : (1 : ℕ) ≤ 2 ^ a := Nat.one_le_two_pow
  exact_mod_cast h

/-- Claim C3: for every `attemptIndex` and every value drawn from the
randomness source, `baseDelay ≤ calculateBackoff ≤ maxDelay` (for a
configuration with `baseDelay ≤ maxDelay`), and for fixed randomness the
delay is non-decreasing in the attempt index. -/
theorem c3_backoff_bounded_and_monotone (cfg : RetryConfig) (rand : ℚ)
    (h0 : 0 ≤ rand) (h1 : rand < 1) (hbm : cfg.baseDelay ≤ cfg.maxDelay) :
    (∀ attempt : Nat, (cfg.baseDelay : ℤ) ≤ calculateBackoff cfg rand attempt ∧
      calculateBackoff cfg rand attempt ≤ (cfg.maxDelay : ℤ)) ∧
    ∀ a b : Nat, a ≤ b → calculateBackoff cfg rand a ≤ calculateBackoff cfg rand b := by
  have hB0 : (0 : ℚ) ≤ (cfg.baseDelay : ℚ) := Nat.cast_nonneg _
  have hj0 : (0 : ℚ) ≤ rand * (3 / 10) := mul_nonneg h0 (by norm_num)
  have hexp0 : ∀ a : Nat, (0 : ℚ) ≤ (cfg.baseDelay : ℚ) * 2 ^ a := by
    intro a
    positivity
  have hexpB : ∀ a : Nat, (cfg.baseDelay : ℚ) ≤ (cfg.baseDelay : ℚ) * 2 ^ a := by
    intro a
    exact le_mul_of_one_le_right hB0 (one_le_two_pow_rat a)
  have hexpMono : ∀ a b : Nat, a ≤ b →
      (cfg.baseDelay : ℚ) * 2 ^ a ≤ (cfg.baseDelay : ℚ) * 2 ^ b := by
    intro a b hab
    exact mul_le_mul_of_nonneg_left (pow_le_pow_right₀ (by norm_num) hab) hB0
  constructor
  · intro attempt
    constructor
    · simp only [calculateBackoff]
      rw [Int.le_floor]
      push_cast
      apply le_min
      · have hj : (0 : ℚ) ≤ rand * (3 / 10) * ((cfg.baseDelay : ℚ) * 2 ^ attempt) :=
          mul_nonneg hj0 (hexp0 attempt)
        calc (cfg.baseDelay : ℚ) ≤ (cfg.baseDelay : ℚ) * 2 ^ attempt := hexpB attempt
          _ ≤ (cfg.baseDelay : ℚ) * 2 ^ attempt +
              rand * (3 / 10) * ((cfg.baseDelay : ℚ) * 2 ^ attempt) := le_add_of_nonneg_right hj
      · exact_mod_cast hbm
    · simp only [calculateBackoff]
      have hle : min ((cfg.baseDelay : ℚ) * 2 ^ attempt +
          rand * (3 / 10) * ((cfg.baseDelay : ℚ) * 2 ^ attempt)) (cfg.maxDelay : ℚ) ≤
          (cfg.maxDelay : ℚ) := min_le_right _ _
      calc Int.floor (min ((cfg.baseDelay : ℚ) * 2 ^ attempt +
              rand * (3 / 10) * ((cfg.baseDelay : ℚ) * 2 ^ attempt)) (cfg.maxDelay : ℚ)) ≤
            Int.floor ((cfg.maxDelay : ℚ)) := Int.floor_le_floor hle
        _ = (cfg.maxDelay : ℤ) := Int.floor_natCast _
  · intro a b hab
    simp only [calculateBackoff]
    apply Int.floor_le_floor
    apply min_le_min _ (le_refl _)
    apply add_le_add (hexpMono a b hab)
    exact mul_le_mul_of_nonneg_left (hexpMono a b hab) hj0

/-- Witness for C3 at the default configuration, `rand = 1/2`, attempts 0
and 5. -/
theorem c3_backoff_witness :
    (0 : ℚ) ≤ 1 / 2 ∧ (1 / 2 : ℚ) < 1 ∧
      defaultRetryConfig.baseDelay ≤ defaultRetryConfig.maxDelay ∧
      ((defaultRetryConfig.baseDelay : ℤ) ≤ calculateBackoff defaultRetryConfig (1 / 2) 0 ∧
        calculateBackoff defaultRetryConfig (1 / 2) 0 ≤ (defaultRetryConfig.maxDelay : ℤ)) ∧
      calculateBackoff defaultRetryConfig (1 / 2) 0 ≤ calculateBackoff defaultRetryConfig (1 / 2) 5 := by
  have h := c3_backoff_bounded_and_monotone defaultRetryConfig (1 / 2)
    (by norm_num) (by norm_num) (by decide)
  exact ⟨by norm_num, by norm_num, by decide, h.1 0, h.2 0 5 (by decide)⟩

theorem segAt_self (s t : List Char) : segAt s (s ++ t) = true := by
  induction s with
  | nil => rfl
  | cons a s ih => simp [segAt, ih]

theorem hasSeg_of_segAt (seg l : List Char) (h : segAt seg l = true) :
    hasSeg seg l = true := by
  cases l with
  | nil => simpa [hasSeg] using h
  | cons a l2 => simp [hasSeg, h]

theorem hasSeg_cons (seg : List Char) (a : Char) (l : List Char)
    (h : hasSeg seg l = true) : hasSeg seg (a :: l) = true := by
  simp [hasSeg, h]

theorem hasSeg_append_left (seg pre l : List Char) (h : hasSeg seg l = true) :
    hasSeg seg (pre ++ l) = true := by
  induction pre with
  | nil => simpa using h
  | cons a pre ih => simpa using hasSeg_cons seg a (pre ++ l) ih

theorem hasSeg_of_parts (seg pre post : List Char) :
    hasSeg seg (pre ++ (seg ++ post)) = true :=
  hasSeg_append_left seg pre (seg ++ post)
    (hasSeg_of_segAt seg (seg ++ post) (segAt_self seg post))

theorem hasSeg_suffix (seg pre : List Char) : hasSeg seg (pre ++ seg) = true := by
  have h := hasSeg_of_parts seg pre []
  simpa using h

theorem pollLoop_skip (fetchTask : Nat → Except String MeshyTask) (taskId : String) :
    ∀ k i fuel : Nat,
      (∀ j, j < k → ∃ t, fetchTask (i + j) = .ok t ∧
        (t.status = .PENDING ∨ t.status = .IN_PROGRESS)) →
      pollLoop fetchTask taskId i (k + fuel) = pollLoop fetchTask taskId (i + k) fuel := by
  intro k
  induction k with
  | zero =>
    intro i fuel _
    rw [Nat.zero_add, Nat.add_zero]
  | succ k ih =>
    intro i fuel h
    have harr : k + 1 + fuel = (k + fuel) + 1 := by omega
    rw [harr]
    obtain ⟨t, hft, hnt⟩ := h 0 (Nat.succ_pos k)
    rw [Nat.add_zero] at hft
    have hstep : pollLoop fetchTask taskId i ((k + fuel) + 1) =
        pollLoop fetchTask taskId (i + 1) (k + fuel) := by
      rw [pollLoop, hft]
      rcases hnt with hst | hst
      · simp [hst]
      · simp [hst]
    rw [hstep]
    have h2 : ∀ j, j < k → ∃ t, fetchTask (i + 1 + j) = .ok t ∧
        (t.status = .PENDING ∨ t.status = .IN_PROGRESS) := by
      intro j hj
      have h3 := h (j + 1) (by omega)
      rwa [show i + (j + 1) = i + 1 + j by omega] at h3
    rw [ih (i + 1) fuel h2]
    congr 1
    omega

theorem pollAnimationLoop_skip (getAnimationTask : Nat → Except String AnimationTask)
    (taskId : String) :
    ∀ k i fuel : Nat,
      (∀ j, j < k → ∃ t, getAnimationTask (i + j) = .ok t ∧
        (t.status = .PENDING ∨ t.status = .IN_PROGRESS)) →
      pollAnimationLoop getAnimationTask taskId i (k + fuel) =
        pollAnimationLoop getAnimationTask taskId (i + k) fuel := by
  intro k
  induction k with
  | zero =>
    intro i fuel _
    rw [Nat.zero_add, Nat.add_zero]
  | succ k ih =>
    intro i fuel h
    have harr : k + 1 + fuel = (k + fuel) + 1 := by omega
    rw [harr]
    obtain ⟨t, hft, hnt⟩ := h 0 (Nat.succ_pos k)
    rw [Nat.add_zero] at hft
    have hstep : pollAnimationLoop getAnimationTask taskId i ((k + fuel) + 1) =
        pollAnimationLoop getAnimationTask taskId (i + 1) (k + fuel) := by
      rw [pollAnimationLoop, hft]
      rcases hnt with hst | hst
      · simp [hst]
      · simp [hst]
    rw [hstep]
    have h2 : ∀ j, j < k → ∃ t, getAnimationTask (i + 1 + j) = .ok t ∧
        (t.status = .PENDING ∨ t.status = .IN_PROGRESS) := by
      intro j hj
      have h3 := h (j + 1) (by omega)
      rwa [show i + (j + 1) = i + 1 + j by omega] at h3
    rw [ih (i + 1) fuel h2]
    congr 1
    omega

/-- Claim C4: whenever a poller observes a task in a terminal failure status
(`FAILED` or `EXPIRED` for the text-to-3d poller, `FAILED` or `CANCELED` for
the animations poller) after only non-terminal observations, it fails with
an error message carrying both the task id and the observed status, rather
than continuing to poll. -/
theorem c4_poll_terminal_failure_carries_id_and_status :
    (∀ (fetchTask : Nat → Except String MeshyTask) (taskId : String)
        (maxRetries k : Nat) (task : MeshyTask),
      k < maxRetries →
      (∀ j, j < k → ∃ t, fetchTask j = .ok t ∧
        (t.status = .PENDING ∨ t.status = .IN_PROGRESS)) →
      fetchTask k = .ok task →
      (task.status = .FAILED ∨ task.status = .EXPIRED) →
      pollTask fetchTask taskId maxRetries =
        .error ("Task " ++ taskId ++ " failed with status: " ++
          meshyStatusString task.status) ∧
      hasSeg taskId.data ("Task " ++ taskId ++ " failed with status: " ++
        meshyStatusString task.status).data = true ∧
      hasSeg (meshyStatusString task.status).data
        ("Task " ++ taskId ++ " failed with status: " ++
          meshyStatusString task.status).data = true) ∧
    (∀ (getAnimationTask : Nat → Except String AnimationTask) (taskId : String)
        (maxRetries k : Nat) (task : AnimationTask),
      k < maxRetries →
      (∀ j, j < k → ∃ t, getAnimationTask j = .ok t ∧
        (t.status = .PENDING ∨ t.status = .IN_PROGRESS)) →
      getAnimationTask k = .ok task →
      (task.status = .FAILED ∨ task.status = .CANCELED) →
      pollAnimationTask getAnimationTask taskId maxRetries =
        .error ("Animation task " ++ taskId ++ " failed: " ++
          animStatusString task.status) ∧
      hasSeg taskId.data ("Animation task " ++ taskId ++ " failed: " ++
        animStatusString task.status).data = true ∧
      hasSeg (animStatusString task.status).data
        ("Animation task " ++ taskId ++ " failed: " ++
          animStatusString task.status).data = true) := by
  constructor
  · intro fetchTask taskId maxRetries k task hk hpre hfk hterm
    refine ⟨?_, ?_, ?_⟩
    · unfold pollTask
      have hsplit : maxRetries = k + ((maxRetries - k - 1) + 1) := by omega
      rw [hsplit]
      have hpre0 : ∀ j, j < k → ∃ t, fetchTask (0 + j) = .ok t ∧
          (t.status = .PENDING ∨ t.status = .IN_PROGRESS) := by
        intro j hj
        rw [Nat.zero_add]
        exact hpre j hj
      rw [pollLoop_skip fetchTask taskId k 0 _ hpre0, Nat.zero_add]
      rw [pollLoop, hfk]
      rcases hterm with h | h
      · simp [h]
      · simp [h]
    · simp only [String.data_append, List.append_assoc]
      exact hasSeg_of_parts _ _ _
    · simp only [String.data_append, List.append_assoc]
      exact hasSeg_append_left _ _ _ (hasSeg_append_left _ _ _ (hasSeg_suffix _ _))
  · intro getAnimationTask taskId maxRetries k task hk hpre hfk hterm
    refine ⟨?_, ?_, ?_⟩
    · unfold pollAnimationTask
      have hsplit : maxRetries = k + ((maxRetries - k - 1) + 1) := by omega
      rw [hsplit]
      have hpre0 : ∀ j, j < k → ∃ t, getAnimationTask (0 + j) = .ok t ∧
          (t.status = .PENDING ∨ t.status = .IN_PROGRESS) := by
        intro j hj
        rw [Nat.zero_add]
        exact hpre j hj
      rw [pollAnimationLoop_skip getAnimationTask taskId k 0 _ hpre0, Nat.zero_add]
      rw [pollAnimationLoop, hfk]
      rcases hterm with h | h
      · simp [h]
      · simp [h]
    · simp only [String.data_append, List.append_assoc]
      exact hasSeg_of_parts _ _ _
    · simp only [String.data_append, List.append_assoc]
      exact hasSeg_append_left _ _ _ (hasSeg_append_left _ _ _ (hasSeg_suffix _ _))

/-- Witness for C4: a concrete pending-then-failed fetch sequence for each
poller. -/
theorem c4_poll_terminal_failure_witness :
    pollTask (fun n => if n = 0
        then .ok ⟨"t1", .PENDING, none, none, none, "", 0⟩
        else .ok ⟨"t1", .FAILED, none, none, none, "", 0⟩) "t1" 3 =
      .error ("Task " ++ "t1" ++ " failed with status: " ++ meshyStatusString .FAILED) ∧
    pollAnimationTask (fun n => if n = 0
        then .ok ⟨"a1", .PENDING, none, 0, none, none, none, none, none, none⟩
        else .ok ⟨"a1", .CANCELED, none, 0, none, none, none, none, none, none⟩) "a1" 2 =
      .error ("Animation task " ++ "a1" ++ " failed: " ++ animStatusString .CANCELED) := by
  constructor
  · have h := c4_poll_terminal_failure_carries_id_and_status.1
      (fun n => if n = 0
        then .ok ⟨"t1", .PENDING, none, none, none, "", 0⟩
        else .ok ⟨"t1", .FAILED, none, none, none, "", 0⟩) "t1" 3 1
      ⟨"t1", .FAILED, none, none, none, "", 0⟩ (by omega)
      (by
        intro j hj
        have hj0 : j = 0 := by omega
        subst hj0
        exact ⟨⟨"t1", .PENDING, none, none, none, "", 0⟩, rfl, Or.inl rfl⟩)
      rfl (Or.inl rfl)
    exact h.1
  · have h := c4_poll_terminal_failure_carries_id_and_status.2
      (fun n => if n = 0
        then .ok ⟨"a1", .PENDING, none, 0, none, none, none, none, none, none⟩
        else .ok ⟨"a1", .CANCELED, none, 0, none, none, none, none, none, none⟩) "a1" 2 1
      ⟨"a1", .CANCELED, none, 0, none, none, none, none, none, none⟩ (by omega)
      (by
        intro j hj
        have hj0 : j = 0 := by omega
        subst hj0
        exact ⟨⟨"a1", .PENDING, none, 0, none, none, none, none, none, none⟩, rfl, Or.inl rfl⟩)
      rfl (Or.inr rfl)
    exact h.1

/-- Counterexample to claim C5 as stated: with a fetch sequence that stays
`PENDING` for every tick and a budget of 2 ticks, `pollTask` raises the
timed-out message, and that message does not carry the last observed status
(`PENDING`): the claim that the timeout error carries the last observed
status is false on this input. -/
theorem c5_timeout_counterexample :
    pollTask (fun _ => .ok ⟨"t1", .PENDING, none, none, none, "", 0⟩) "t1" 2 =
      .error "Task t1 timed out" ∧
    hasSeg (meshyStatusString .PENDING).data "Task t1 timed out".data = false := by
  constructor
  · rfl
  · decide

/-- Claim C5 as amended: when no terminal status is observed within
`maxRetries` ticks, `pollTask` fails with the timed-out error, which carries
the task id (but not the last observed status). -/
theorem c5_amended_timeout_carries_id (fetchTask : Nat → Except String MeshyTask)
    (taskId : String) (maxRetries : Nat)
    (h : ∀ j, j < maxRetries → ∃ t, fetchTask j = .ok t ∧
      (t.status = .PENDING ∨ t.status = .IN_PROGRESS)) :
    pollTask fetchTask taskId maxRetries = .error ("Task " ++ taskId ++ " timed out") ∧
    hasSeg taskId.data ("Task " ++ taskId ++ " timed out").data = true := by
  constructor
  · unfold pollTask
    have hpre0 : ∀ j, j < maxRetries → ∃ t, fetchTask (0 + j) = .ok t ∧
        (t.status = .PENDING ∨ t.status = .IN_PROGRESS) := by
      intro j hj
      rw [Nat.zero_add]
      exact h j hj
    have hskip := pollLoop_skip fetchTask taskId maxRetries 0 0 hpre0
    rw [Nat.add_zero, Nat.zero_add] at hskip
    rw [hskip]
    rfl
  · simp only [String.data_append, List.append_assoc]
    exact hasSeg_of_parts _ _ _

/-- Witness for the amended C5 at a concrete always-pending fetch. -/
theorem c5_amended_timeout_witness :
    pollTask (fun _ => .ok ⟨"t2", .IN_PROGRESS, none, none, none, "", 0⟩) "t2" 3 =
      .error ("Task " ++ "t2" ++ " timed out") := by
  have h := c5_amended_timeout_carries_id
    (fun _ => .ok ⟨"t2", .IN_PROGRESS, none, none, none, "", 0⟩) "t2" 3
    (by
      intro j hj
      exact ⟨⟨"t2", .IN_PROGRESS, none, none, none, "", 0⟩, rfl, Or.inr rfl⟩)
  exact h.1

theorem requestLoop_step_err (cfg : RetryConfig) (fetchSeq : Nat → FetchOut α)
    (pushTimes : Nat → Nat) (attempt fuel : Nat) (times : List Nat) (count : Nat)
    (lastError : Option ReqError) (status : Nat) (bodyMsg : Option String)
    (json : Except String α)
    (hf : fetchSeq attempt = .resp status bodyMsg json)
    (hok : responseOk status = false) :
    requestLoop cfg fetchSeq pushTimes attempt (fuel + 1) times count lastError =
      requestLoop cfg fetchSeq pushTimes (attempt + 1) fuel times (count + 1)
        (some (.classified (handleErrorResponse cfg status bodyMsg attempt))) := by
  rw [requestLoop, hf]
  simp [hok]

theorem requestLoop_step_ok (cfg : RetryConfig) (fetchSeq : Nat → FetchOut α)
    (pushTimes : Nat → Nat) (attempt fuel : Nat) (times : List Nat) (count : Nat)
    (lastError : Option ReqError) (status : Nat) (bodyMsg : Option String) (payload : α)
    (hf : fetchSeq attempt = .resp status bodyMsg (.ok payload))
    (hok : responseOk status = true) :
    requestLoop cfg fetchSeq pushTimes attempt (fuel + 1) times count lastError =
      ⟨.ok payload, count + 1, times ++ [pushTimes attempt]⟩ := by
  rw [requestLoop, hf]
  simp [hok]

theorem requestLoop_step_decode (cfg : RetryConfig) (fetchSeq : Nat → FetchOut α)
    (pushTimes : Nat → Nat) (attempt fuel : Nat) (times : List Nat) (count : Nat)
    (lastError : Option ReqError) (status : Nat) (bodyMsg : Option String) (m : String)
    (hf : fetchSeq attempt = .resp status bodyMsg (.error m))
    (hok : responseOk status = true) :
    requestLoop cfg fetchSeq pushTimes attempt (fuel + 1) times count lastError =
      requestLoop cfg fetchSeq pushTimes (attempt + 1) fuel
        (times ++ [pushTimes attempt]) (count + 1) (some (.decode m)) := by
  rw [requestLoop, hf]
  simp [hok]

/-- Claim C1 evaluated at its failing input: with the default configuration
(`maxRetries = 3`) and a fetch sequence that answers status 401 on every
attempt, `request` performs 4 network attempts — retrying the 401 with
backoff like any other error, because the catch block of the retry loop
never consults the error kind or `retryOn` — and only then rejects with the
classified `MeshyAuthError`.  The claim that a 401 fails after exactly one
attempt with no retries is false on this input. -/
theorem c1_unauthorized_retried_despite_claim :
    (request defaultRetryConfig 0
      (fun _ => FetchOut.resp 401 (some "bad key") (.ok "p")) (fun _ => 5)
      ([] : List Nat)).fetchCount = 4 ∧
    (request defaultRetryConfig 0
      (fun _ => FetchOut.resp 401 (some "bad key") (.ok "p")) (fun _ => 5)
      ([] : List Nat)).result =
      .error (.classified ⟨.MeshyAuthError, "Unauthorized: bad key", 401, none⟩) ∧
    ¬ (request defaultRetryConfig 0
      (fun _ => FetchOut.resp 401 (some "bad key") (.ok "p")) (fun _ => 5)
      ([] : List Nat)).fetchCount = 1 := by
  refine ⟨rfl, rfl, by decide⟩

/-- Claim C6: a call that is answered 429 on attempts 0 and 1 and 200 on
attempt 2 with a body that decodes to `payload`, with `maxRetries ≥ 2`,
succeeds with that decoded payload, appends exactly one new timestamp to
the pruned rate window, and performed three fetches. -/
theorem c6_retry_429_twice_then_success (cfg : RetryConfig) (now : Nat)
    (pushTimes : Nat → Nat) (times : List Nat) (fetchSeq : Nat → FetchOut α)
    (b0 b1 b2 : Option String) (j0 j1 : Except String α) (payload : α)
    (hm : 2 ≤ cfg.maxRetries)
    (h0 : fetchSeq 0 = .resp 429 b0 j0)
    (h1 : fetchSeq 1 = .resp 429 b1 j1)
    (h2 : fetchSeq 2 = .resp 200 b2 (.ok payload)) :
    (request cfg now fetchSeq pushTimes times).result = .ok payload ∧
    (request cfg now fetchSeq pushTimes times).times =
      (checkRateLimit now times).2 ++ [pushTimes 2] ∧
    (request cfg now fetchSeq pushTimes times).fetchCount = 3 := by
  obtain ⟨k, hk⟩ : ∃ k, cfg.maxRetries = k + 2 := ⟨cfg.maxRetries - 2, by omega⟩
  have hloop : requestLoop cfg fetchSeq pushTimes 0 (cfg.maxRetries + 1)
      ((checkRateLimit now times).2) 0 none =
      ⟨.ok payload, 3, (checkRateLimit now times).2 ++ [pushTimes 2]⟩ := by
    rw [hk]
    rw [show k + 2 + 1 = (k + 1 + 1) + 1 from rfl]
    rw [requestLoop_step_err cfg fetchSeq pushTimes 0 (k + 1 + 1) _ _ _ 429 b0 j0 h0
      (by decide)]
    rw [requestLoop_step_err cfg fetchSeq pushTimes 1 (k + 1) _ _ _ 429 b1 j1 h1
      (by decide)]
    rw [requestLoop_step_ok cfg fetchSeq pushTimes 2 k _ _ _ 200 b2 payload h2
      (by decide)]
  refine ⟨?_, ?_, ?_⟩
  · show (requestLoop cfg fetchSeq pushTimes 0 (cfg.maxRetries + 1)
      ((checkRateLimit now times).2) 0 none).result = _
    rw [hloop]
  · show (requestLoop cfg fetchSeq pushTimes 0 (cfg.maxRetries + 1)
      ((checkRateLimit now times).2) 0 none).times = _
    rw [hloop]
  · show (requestLoop cfg fetchSeq pushTimes 0 (cfg.maxRetries + 1)
      ((checkRateLimit now times).2) 0 none).fetchCount = _
    rw [hloop]

/-- Witness for C6 with the default configuration and a concrete
429/429/200 sequence. -/
theorem c6_retry_429_witness :
    (request defaultRetryConfig 0
      (fun n => if n = 0 then FetchOut.resp 429 none (.error "nj")
        else if n = 1 then FetchOut.resp 429 none (.error "nj")
        else FetchOut.resp 200 none (.ok "payload")) (fun _ => 7)
      ([] : List Nat)).result = .ok "payload" ∧
    (request defaultRetryConfig 0
      (fun n => if n = 0 then FetchOut.resp 429 none (.error "nj")
        else if n = 1 then FetchOut.resp 429 none (.error "nj")
        else FetchOut.resp 200 none (.ok "payload")) (fun _ => 7)
      ([] : List Nat)).times = (checkRateLimit 0 ([] : List Nat)).2 ++ [7] := by
  have h := c6_retry_429_twice_then_success defaultRetryConfig 0 (fun _ => 7)
    ([] : List Nat)
    (fun n => if n = 0 then FetchOut.resp 429 none (.error "nj")
      else if n = 1 then FetchOut.resp 429 none (.error "nj")
      else FetchOut.resp 200 none (.ok "payload")) none none none
    (.error "nj") (.error "nj") "payload"
    (by decide) rfl rfl rfl
  exact ⟨h.1, h.2.1⟩

theorem requestLoop_times_clean (cfg : RetryConfig) (fetchSeq : Nat → FetchOut α)
    (pushTimes : Nat → Nat)
    (hdecode : ∀ a s b j, fetchSeq a = .resp s b j → responseOk s = true →
      ∃ p, j = Except.ok p) :
    ∀ (fuel attempt : Nat) (times : List Nat) (count : Nat)
      (lastError : Option ReqError),
      (exceptIsOk (requestLoop cfg fetchSeq pushTimes attempt fuel times count lastError).result = true →
        ∃ i, (requestLoop cfg fetchSeq pushTimes attempt fuel times count lastError).times =
          times ++ [pushTimes i]) ∧
      (exceptIsOk (requestLoop cfg fetchSeq pushTimes attempt fuel times count lastError).result = false →
        (requestLoop cfg fetchSeq pushTimes attempt fuel times count lastError).times = times) := by
  intro fuel
  induction fuel with
  | zero =>
    intro attempt times count lastError
    constructor
    · intro h
      simp [requestLoop, exceptIsOk] at h
    · intro _
      rfl
  | succ fuel ih =>
    intro attempt times count lastError
    cases hf : fetchSeq attempt with
    | netError m =>
      have hstep : requestLoop cfg fetchSeq pushTimes attempt (fuel + 1) times count lastError =
          requestLoop cfg fetchSeq pushTimes (attempt + 1) fuel times (count + 1)
            (some (.transport m)) := by
        rw [requestLoop, hf]
      rw [hstep]
      exact ih (attempt + 1) times (count + 1) (some (.transport m))
    | resp status bodyMsg json =>
      cases hok : responseOk status with
      | true =>
        obtain ⟨p, hp⟩ := hdecode attempt status bodyMsg json hf hok
        subst hp
        rw [requestLoop_step_ok cfg fetchSeq pushTimes attempt fuel times count lastError
          status bodyMsg p hf hok]
        constructor
        · intro _
          exact ⟨attempt, rfl⟩
        · intro h
          simp [exceptIsOk] at h
      | false =>
        rw [requestLoop_step_err cfg fetchSeq pushTimes attempt fuel times count lastError
          status bodyMsg json hf hok]
        exact ih (attempt + 1) times (count + 1) _

/-- Counterexample to claim C7 as stated, in both halves.  First, admission
is not checked before every attempt: a call with three network attempts
(429, 429, then 200) performs exactly one `checkRateLimit` admission check,
before the loop.  Second, the window entry is not appended once per logical
call on eventual success: `requestTimes.push(Date.now())` precedes
`response.json()` in the try block, so a 2xx response whose body fails to
decode appends a timestamp and is then retried — a call answered 200 with
an undecodable body and then 200 with a good body succeeds having appended
two timestamps, and a call whose only response is a 200 with an undecodable
body fails while still appending one timestamp. -/
theorem c7_admission_and_single_append_counterexample :
    ((request defaultRetryConfig 0
      (fun n => if n = 2 then FetchOut.resp 200 none (.ok "p")
        else FetchOut.resp 429 (some "m") (.error "nj")) (fun _ => 5)
      ([] : List Nat)).fetchCount = 3 ∧
    (request defaultRetryConfig 0
      (fun n => if n = 2 then FetchOut.resp 200 none (.ok "p")
        else FetchOut.resp 429 (some "m") (.error "nj")) (fun _ => 5)
      ([] : List Nat)).admissionChecks = 1) ∧
    ((request defaultRetryConfig 0
      (fun n => if n = 0 then FetchOut.resp 200 none (.error "bad json")
        else FetchOut.resp 200 none (.ok "p")) (fun a => 100 + a)
      ([] : List Nat)).result = .ok "p" ∧
    (request defaultRetryConfig 0
      (fun n => if n = 0 then FetchOut.resp 200 none (.error "bad json")
        else FetchOut.resp 200 none (.ok "p")) (fun a => 100 + a)
      ([] : List Nat)).times = [100, 101]) ∧
    ((request ⟨0, 1000, 10000, [429, 500, 502, 503, 504]⟩ 0
      (fun _ => FetchOut.resp 200 none
        (Except.error "bad json" : Except String String)) (fun a => 100 + a)
      ([] : List Nat)).result = .error (.decode "bad json") ∧
    (request ⟨0, 1000, 10000, [429, 500, 502, 503, 504]⟩ 0
      (fun _ => FetchOut.resp 200 none
        (Except.error "bad json" : Except String String)) (fun a => 100 + a)
      ([] : List Nat)).times = [100]) := by
  exact ⟨⟨rfl, rfl⟩, ⟨rfl, rfl⟩, ⟨rfl, rfl⟩⟩

/-- Claim C7 as amended: in every executor call, the rate-limit admission
check runs exactly once per logical call — before the first attempt, not
before every attempt.  The RateWindow entry is appended at the moment a 2xx
response is received, before its body is decoded; so, provided every 2xx
response of the call has a body that decodes successfully, the entry is
appended exactly once per logical call, on eventual success, and not at all
on failure.  (Without that proviso a call can append several timestamps, or
append and still fail — see the counterexample.) -/
theorem c7_amended_admission_once_append_on_success (cfg : RetryConfig) (now : Nat)
    (fetchSeq : Nat → FetchOut α) (pushTimes : Nat → Nat) (times : List Nat) :
    (request cfg now fetchSeq pushTimes times).admissionChecks = 1 ∧
    ((∀ a s b j, fetchSeq a = .resp s b j → responseOk s = true →
        ∃ p, j = Except.ok p) →
      (∀ a : α, (request cfg now fetchSeq pushTimes times).result = .ok a →
        ∃ i, (request cfg now fetchSeq pushTimes times).times =
          (checkRateLimit now times).2 ++ [pushTimes i]) ∧
      (∀ e : ReqError, (request cfg now fetchSeq pushTimes times).result = .error e →
        (request cfg now fetchSeq pushTimes times).times =
          (checkRateLimit now times).2)) := by
  refine ⟨rfl, ?_⟩
  intro hdecode
  have h := requestLoop_times_clean cfg fetchSeq pushTimes hdecode (cfg.maxRetries + 1) 0
    ((checkRateLimit now times).2) 0 none
  constructor
  · intro a ha
    have hok : exceptIsOk (requestLoop cfg fetchSeq pushTimes 0 (cfg.maxRetries + 1)
        ((checkRateLimit now times).2) 0 none).result = true := by
      have ha' : (requestLoop cfg fetchSeq pushTimes 0 (cfg.maxRetries + 1)
          ((checkRateLimit now times).2) 0 none).result = .ok a := ha
      rw [ha']
      rfl
    exact h.1 hok
  · intro e he
    have hok : exceptIsOk (requestLoop cfg fetchSeq pushTimes 0 (cfg.maxRetries + 1)
        ((checkRateLimit now times).2) 0 none).result = false := by
      have he' : (requestLoop cfg fetchSeq pushTimes 0 (cfg.maxRetries + 1)
          ((checkRateLimit now times).2) 0 none).result = .error e := he
      rw [he']
      rfl
    exact h.2 hok

/-- Witness for the amended C7 at a concrete call whose one response is a
2xx with a cleanly decoding body. -/
theorem c7_amended_witness :
    (request defaultRetryConfig 0 (fun _ => FetchOut.resp 200 none (.ok "p"))
      (fun _ => 9) ([] : List Nat)).admissionChecks = 1 ∧
    (request defaultRetryConfig 0 (fun _ => FetchOut.resp 200 none (.ok "p"))
      (fun _ => 9) ([] : List Nat)).times =
      (checkRateLimit 0 ([] : List Nat)).2 ++ [9] := by
  have h := c7_amended_admission_once_append_on_success defaultRetryConfig 0
    (fun _ => FetchOut.resp 200 none (.ok "p")) (fun _ => 9) ([] : List Nat)
  obtain ⟨i, hi⟩ := (h.2 (by
    intro a s b j hf _
    cases hf
    exact ⟨"p", rfl⟩)).1 "p" rfl
  exact ⟨h.1, hi⟩

/-- Counterexample to claim C9 as stated: classifying the same
`(status, body)` pair — 429 with message `limit hit` — at attempt 0 and at
attempt 3 (the default `maxRetries`) yields different `ClassifiedError`
values: the messages differ (`limit hit` versus
`Rate Limit Exceeded: limit hit`), so classification is not a function of
the status and body alone. -/
theorem c9_classification_depends_on_attempt :
    ¬ handleErrorResponse defaultRetryConfig 429 (some "limit hit") 0 =
      handleErrorResponse defaultRetryConfig 429 (some "limit hit") 3 := by
  decide

/-- Claim C9 as amended: classification is a pure function of the status,
body, attempt index and configuration.  The kind (error class), status code
and stored body never depend on the attempt index; the full value is
attempt-independent for every status other than 429 and the server-error
statuses, and also whenever the two attempt indices agree on being below
`maxRetries`. -/
theorem c9_amended_classification_determinism (cfg : RetryConfig) (status : Nat)
    (bodyMsg : Option String) (a1 a2 : Nat) :
    ((handleErrorResponse cfg status bodyMsg a1).name =
        (handleErrorResponse cfg status bodyMsg a2).name ∧
      (handleErrorResponse cfg status bodyMsg a1).statusCode =
        (handleErrorResponse cfg status bodyMsg a2).statusCode ∧
      (handleErrorResponse cfg status bodyMsg a1).responseBody =
        (handleErrorResponse cfg status bodyMsg a2).responseBody) ∧
    (¬ (status = 429 ∨ status ∈ serverErrorStatuses) →
      handleErrorResponse cfg status bodyMsg a1 =
        handleErrorResponse cfg status bodyMsg a2) ∧
    ((a1 < cfg.maxRetries ↔ a2 < cfg.maxRetries) →
      handleErrorResponse cfg status bodyMsg a1 =
        handleErrorResponse cfg status bodyMsg a2) := by
  refine ⟨?_, ?_, ?_⟩
  · simp only [handleErrorResponse]
    split_ifs <;> exact ⟨rfl, rfl, rfl⟩
  · intro hne
    have h429 : ¬ status = 429 := fun h => hne (Or.inl h)
    have hsrv : ¬ status ∈ serverErrorStatuses := fun h => hne (Or.inr h)
    simp only [handleErrorResponse, h429, hsrv, if_false]
  · intro hiff
    by_cases hlt : a1 < cfg.maxRetries
    · have hlt2 : a2 < cfg.maxRetries := hiff.mp hlt
      simp only [handleErrorResponse, hlt, hlt2, if_true]
    · have hlt2 : ¬ a2 < cfg.maxRetries := fun h => hlt (hiff.mpr h)
      simp only [handleErrorResponse, hlt, hlt2, if_false]

/-- Witness for the amended C9: a 400 response classified at attempts 0 and
5 yields the same value. -/
theorem c9_amended_witness :
    handleErrorResponse defaultRetryConfig 400 (some "oops") 0 =
      handleErrorResponse defaultRetryConfig 400 (some "oops") 5 :=
  (c9_amended_classification_determinism defaultRetryConfig 400 (some "oops") 0 5).2.1
    (by decide)

theorem getTaskLoop_step_404 (fetch : Nat → GetResp) (maxR attempt fuel count : Nat)
    (waits : List Nat) (body : String)
    (hf : fetch attempt = .err 404 body) (hlt : attempt < maxR) :
    getTaskLoop fetch maxR attempt (fuel + 1) count waits =
      getTaskLoop fetch maxR (attempt + 1) fuel (count + 1)
        (waits ++ [2000 * (attempt + 1)]) := by
  simp only [getTaskLoop, hf]
  simp [hlt]

theorem getTaskLoop_step_ok (fetch : Nat → GetResp) (maxR attempt fuel count : Nat)
    (waits : List Nat) (task : MeshyTask) (hf : fetch attempt = .ok task) :
    getTaskLoop fetch maxR attempt (fuel + 1) count waits = ⟨.ok task, count + 1, waits⟩ := by
  simp only [getTaskLoop, hf]

theorem getTaskLoop_step_fail (fetch : Nat → GetResp) (maxR attempt fuel count : Nat)
    (waits : List Nat) (status : Nat) (body : String)
    (hf : fetch attempt = .err status body)
    (hcond : ¬ (status = 404 ∧ attempt < maxR)) :
    getTaskLoop fetch maxR attempt (fuel + 1) count waits =
      ⟨.error ("Failed to get task: " ++ toString status ++ " - " ++ body),
        count + 1, waits⟩ := by
  simp only [getTaskLoop, hf]
  rw [if_neg hcond]

/-- Up to 3 consecutive 404 responses at the start of a `getTask` call are
absorbed: the call still returns the task observed on the first ok fetch,
with one extra fetch per 404 and the growing backoff schedule
`2000, 4000, 6000`. -/
theorem getTask_absorb (fetch : Nat → GetResp) (k : Nat) (task : MeshyTask)
    (b : Nat → String) (hk : k ≤ 3)
    (h404 : ∀ j, j < k → fetch j = .err 404 (b j))
    (hok : fetch k = .ok task) :
    getTask fetch true =
      ⟨.ok task, k + 1, (List.range k).map (fun j => 2000 * (j + 1))⟩ := by
  have hmax : getTask fetch true = getTaskLoop fetch 3 0 4 0 [] := rfl
  rw [hmax]
  interval_cases k
  · rw [show (4 : Nat) = 3 + 1 from rfl,
      getTaskLoop_step_ok fetch 3 0 3 0 [] task hok]
    simp
  · rw [show (4 : Nat) = 3 + 1 from rfl,
      getTaskLoop_step_404 fetch 3 0 3 0 [] (b 0) (h404 0 (by omega)) (by omega),
      show (3 : Nat) = 2 + 1 from rfl,
      getTaskLoop_step_ok fetch 3 1 2 1 ([] ++ [2000 * (0 + 1)]) task hok]
    simp [List.range_succ]
  · rw [show (4 : Nat) = 3 + 1 from rfl,
      getTaskLoop_step_404 fetch 3 0 3 0 [] (b 0) (h404 0 (by omega)) (by omega),
      show (3 : Nat) = 2 + 1 from rfl,
      getTaskLoop_step_404 fetch 3 1 2 1 ([] ++ [2000 * (0 + 1)]) (b 1)
        (h404 1 (by omega)) (by omega),
      show (2 : Nat) = 1 + 1 from rfl,
      getTaskLoop_step_ok fetch 3 2 1 2 (([] ++ [2000 * (0 + 1)]) ++ [2000 * (1 + 1)])
        task hok]
    simp [List.range_succ]
  · rw [show (4 : Nat) = 3 + 1 from rfl,
      getTaskLoop_step_404 fetch 3 0 3 0 [] (b 0) (h404 0 (by omega)) (by omega),
      show (3 : Nat) = 2 + 1 from rfl,
      getTaskLoop_step_404 fetch 3 1 2 1 ([] ++ [2000 * (0 + 1)]) (b 1)
        (h404 1 (by omega)) (by omega),
      show (2 : Nat) = 1 + 1 from rfl,
      getTaskLoop_step_404 fetch 3 2 1 2 (([] ++ [2000 * (0 + 1)]) ++ [2000 * (1 + 1)])
        (b 2) (h404 2 (by omega)) (by omega),
      getTaskLoop_step_ok fetch 3 3 0 3
        ((([] ++ [2000 * (0 + 1)]) ++ [2000 * (1 + 1)]) ++ [2000 * (2 + 1)]) task hok]
    simp [List.range_succ]

/-- Claim C8: a 404 from the status fetch within the initial
eventual-consistency window (up to 3 extra attempts inside `getTask`) is
retried with a growing backoff and does not consume the poller's regular
attempts; a 404 after the window exhausts, and any other fetch failure,
propagates immediately. -/
theorem c8_eventual_consistency_window :
    (∀ (fetch : Nat → GetResp) (k : Nat) (task : MeshyTask) (b : Nat → String),
      k ≤ 3 →
      (∀ j, j < k → fetch j = .err 404 (b j)) →
      fetch k = .ok task →
      (getTask fetch true).result = .ok task ∧
      (getTask fetch true).fetchCount = k + 1 ∧
      (getTask fetch true).waits = (List.range k).map (fun j => 2000 * (j + 1)) ∧
      (getTask fetch true).waits.Pairwise (· < ·)) ∧
    (∀ (fetch : Nat → GetResp) (b : Nat → String),
      (∀ j, j ≤ 3 → fetch j = .err 404 (b j)) →
      (getTask fetch true).result =
        .error ("Failed to get task: " ++ toString (404 : Nat) ++ " - " ++ b 3) ∧
      (getTask fetch true).fetchCount = 4) ∧
    (∀ (fetch : Nat → GetResp) (status : Nat) (body : String),
      ¬ status = 404 →
      fetch 0 = .err status body →
      getTask fetch true =
        ⟨.error ("Failed to get task: " ++ toString status ++ " - " ++ body), 1, []⟩) ∧
    (∀ (grid : Nat → Nat → GetResp) (tasks : Nat → MeshyTask) (ks : Nat → Nat)
        (bs : Nat → Nat → String) (taskId : String) (maxAttempts : Nat),
      (∀ i, ks i ≤ 3) →
      (∀ i j, j < ks i → grid i j = .err 404 (bs i j)) →
      (∀ i, grid i (ks i) = .ok (tasks i)) →
      pollTask (fun i => (getTask (grid i) true).result) taskId maxAttempts =
        pollTask (fun i => .ok (tasks i)) taskId maxAttempts) := by
  refine ⟨?_, ?_, ?_, ?_⟩
  · intro fetch k task b hk h404 hok
    rw [getTask_absorb fetch k task b hk h404 hok]
    refine ⟨rfl, rfl, rfl, ?_⟩
    exact (List.pairwise_lt_range k).map _ (fun a c hac => by omega)
  · intro fetch b h
    have heval : getTask fetch true =
        ⟨.error ("Failed to get task: " ++ toString (404 : Nat) ++ " - " ++ b 3), 4,
          (([] ++ [2000 * (0 + 1)]) ++ [2000 * (1 + 1)]) ++ [2000 * (2 + 1)]⟩ := by
      have hmax : getTask fetch true = getTaskLoop fetch 3 0 4 0 [] := rfl
      rw [hmax, show (4 : Nat) = 3 + 1 from rfl,
        getTaskLoop_step_404 fetch 3 0 3 0 [] (b 0) (h 0 (by omega)) (by omega),
        show (3 : Nat) = 2 + 1 from rfl,
        getTaskLoop_step_404 fetch 3 1 2 1 ([] ++ [2000 * (0 + 1)]) (b 1)
          (h 1 (by omega)) (by omega),
        show (2 : Nat) = 1 + 1 from rfl,
        getTaskLoop_step_404 fetch 3 2 1 2 (([] ++ [2000 * (0 + 1)]) ++ [2000 * (1 + 1)])
          (b 2) (h 2 (by omega)) (by omega),
        getTaskLoop_step_fail fetch 3 3 0 3
          ((([] ++ [2000 * (0 + 1)]) ++ [2000 * (1 + 1)]) ++ [2000 * (2 + 1)])
          404 (b 3) (h 3 (by omega)) (by omega)]
    rw [heval]
    exact ⟨rfl, rfl⟩
  · intro fetch status body hs hf
    have hmax : getTask fetch true = getTaskLoop fetch 3 0 4 0 [] := rfl
    rw [hmax, show (4 : Nat) = 3 + 1 from rfl,
      getTaskLoop_step_fail fetch 3 0 3 0 [] status body hf
        (by intro hc; exact hs hc.1)]
  · intro grid tasks ks bs taskId maxAttempts hks h404 hok
    have hfe : (fun i => (getTask (grid i) true).result) =
        (fun i => (Except.ok (tasks i) : Except String MeshyTask)) := by
      funext i
      rw [getTask_absorb (grid i) (ks i) (tasks i) (bs i) (hks i) (h404 i) (hok i)]
    rw [hfe]

/-- Witness for C8: two 404s absorbed with waits 2000 and 4000 ms, and an
immediate propagation of a 500 fetch failure. -/
theorem c8_eventual_consistency_witness :
    (getTask (fun j => if j < 2 then GetResp.err 404 "nf"
      else GetResp.ok ⟨"t1", .PENDING, none, none, none, "", 0⟩) true).result =
      .ok ⟨"t1", .PENDING, none, none, none, "", 0⟩ ∧
    (getTask (fun j => if j < 2 then GetResp.err 404 "nf"
      else GetResp.ok ⟨"t1", .PENDING, none, none, none, "", 0⟩) true).waits =
      [2000, 4000] ∧
    getTask (fun _ => GetResp.err 500 "boom") true =
      ⟨.error ("Failed to get task: " ++ toString (500 : Nat) ++ " - " ++ "boom"), 1, []⟩ := by
  have h1 := c8_eventual_consistency_window.1
    (fun j => if j < 2 then GetResp.err 404 "nf"
      else GetResp.ok ⟨"t1", .PENDING, none, none, none, "", 0⟩) 2
    ⟨"t1", .PENDING, none, none, none, "", 0⟩ (fun _ => "nf") (by omega)
    (by
      intro j hj
      simp [hj])
    (by norm_num)
  have h3 := c8_eventual_consistency_window.2.2.1
    (fun _ => GetResp.err 500 "boom") 500 "boom" (by omega) rfl
  refine ⟨h1.1, ?_, h3⟩
  rw [h1.2.2.1]
  rfl

/-- Claim C10: `createRetextureTask` validates its parameters before any
network request: whenever neither input field nor, respectively, neither
style field is supplied, it fails immediately with the corresponding
descriptive error and the request callback is never invoked. -/
theorem c10_retexture_validation_before_request (params : RetextureTaskParams)
    (makeRequestWithRetry : RetextureRequestBody → Except String CreateResp) (now : Nat)
    (h : (params.input_task_id = none ∧ params.model_url = none) ∨
      (params.text_style_prompt = none ∧ params.image_style_url = none)) :
    ((createRetextureTask params makeRequestWithRetry now).outcome =
        .error "Either input_task_id or model_url is required" ∨
      (createRetextureTask params makeRequestWithRetry now).outcome =
        .error "Either text_style_prompt or image_style_url is required") ∧
    (createRetextureTask params makeRequestWithRetry now).callbackCalls = 0 := by
  unfold createRetextureTask
  rcases h with ⟨h1, h2⟩ | ⟨h1, h2⟩
  · rw [if_pos ⟨by rw [h1]; rfl, by rw [h2]; rfl⟩]
    exact ⟨Or.inl rfl, rfl⟩
  · by_cases hin : truthyStr params.input_task_id = false ∧ truthyStr params.model_url = false
    · rw [if_pos hin]
      exact ⟨Or.inl rfl, rfl⟩
    · rw [if_neg hin, if_pos ⟨by rw [h1]; rfl, by rw [h2]; rfl⟩]
      exact ⟨Or.inr rfl, rfl⟩

/-- Witness for C10: all fields absent. -/
theorem c10_retexture_validation_witness :
    (createRetextureTask ⟨none, none, none, none, none, none, none⟩
      (fun _ => .ok ⟨some "id1", none⟩) 0).outcome =
      .error "Either input_task_id or model_url is required" ∧
    (createRetextureTask ⟨none, none, none, none, none, none, none⟩
      (fun _ => .ok ⟨some "id1", none⟩) 0).callbackCalls = 0 := by
  have h := c10_retexture_validation_before_request
    ⟨none, none, none, none, none, none, none⟩ (fun _ => .ok ⟨some "id1", none⟩) 0
    (Or.inl ⟨rfl, rfl⟩)
  exact ⟨rfl, h.2⟩

end ModelSynth
